import Mathlib

/-!
Verification development for the notification-system repository
(API gateway in Go, push-service consumer in TypeScript).

The definitions below are shallow embeddings of the source functions:
pure data flow is modelled directly, stateful code is modelled by
explicit state passing, asynchronous timers are modelled by explicit
time parameters (milliseconds as `Nat`), and the opaque downstream
collaborators (FCM delivery, user service, Redis, the AMQP broker) are
modelled by outcome oracles / effect lists.
-/

/-! ## Push service: retry and circuit-breaker policy
Embedding of `PushService` (push-service `push.service.ts`):
constants `MAX_RETRIES`, `RETRY_DELAY_MS`, `CIRCUIT_BREAKER_THRESHOLD`,
`CIRCUIT_RESET_TIMEOUT`, and methods `sendToUser`, `handleError`,
`tripCircuitBreaker`, `resetCircuitBreaker`. -/

def MAX_RETRIES : Nat := 3

def RETRY_DELAY_MS : Nat := 1000

def CIRCUIT_BREAKER_THRESHOLD : Nat := 5

def CIRCUIT_RESET_TIMEOUT : Nat := 60000

/-- Process-local mutable state of the `PushService` singleton:
`isCircuitOpen` and `failureCount` are the source fields; `pendingResetAt`
records the absolute time (ms) at which the `setTimeout` scheduled by
`tripCircuitBreaker` will run `resetCircuitBreaker`, `none` when no reset
timer is pending. -/
structure PushService where
  isCircuitOpen : Bool
  failureCount : Nat
  pendingResetAt : Option Nat
deriving DecidableEq, Repr

/-- The initial state of the singleton: breaker closed, no failures. -/
def PushService.init : PushService := ⟨false, 0, none⟩

/-- Outcome of one pass through the body of `sendToUser` when the breaker
is closed, as decided by the opaque downstream collaborators:
`delivered` = user fetched, push enabled, FCM send succeeded;
`pushDisabled` = user has push disabled or no token (no throw);
`deliveryError` = `getUserData` or `sendToDevice` threw with this message. -/
inductive DeliveryOutcome where
  | delivered
  | pushDisabled
  | deliveryError (msg : String)
deriving DecidableEq, Repr

/-- A status write performed via `updateNotificationStatus`. -/
inductive StatusWrite where
  | pending
  | delivered
  | failed (errorMessage : String)
deriving DecidableEq, Repr

/-- A retry scheduled by `handleError` via `setTimeout`: fires after
`delayMs` and re-enters `sendToUser` with `retryCount`. -/
structure RetrySchedule where
  delayMs : Nat
  retryCount : Nat
deriving DecidableEq, Repr

/-- `resetCircuitBreaker`: closes the breaker and zeroes the failure
count (the pending timer, once fired or superseded, is cleared). -/
def PushService.resetCircuitBreaker (_st : PushService) : PushService :=
  ⟨false, 0, none⟩

/-- `tripCircuitBreaker` at absolute time `now`: opens the breaker and
schedules `resetCircuitBreaker` to run after `CIRCUIT_RESET_TIMEOUT`. -/
def PushService.tripCircuitBreaker (now : Nat) (st : PushService) : PushService :=
  { st with isCircuitOpen := true, pendingResetAt := some (now + CIRCUIT_RESET_TIMEOUT) }

/-- `handleError(error, notificationId, userId, notification, retryCount)`:
returns the new breaker state, the status write it performs (if any) and
the retry it schedules (if any).  Mirrors the source: when
`retryCount >= MAX_RETRIES` it marks the notification failed and returns
before the circuit-breaker increment; otherwise it increments
`failureCount`, trips the breaker at the threshold, and schedules a retry
after `RETRY_DELAY_MS * 2 ^ retryCount` with `retryCount + 1`. -/
def PushService.handleError (now : Nat) (errorMessage : String) (retryCount : Nat)
    (st : PushService) : PushService × Option StatusWrite × Option RetrySchedule :=
  if MAX_RETRIES ≤ retryCount then
    (st, some (StatusWrite.failed ("Max retries reached: " ++ errorMessage)), none)
  else
    let st1 : PushService := { st with failureCount := st.failureCount + 1 }
    let st2 : PushService :=
      if CIRCUIT_BREAKER_THRESHOLD ≤ st1.failureCount then st1.tripCircuitBreaker now else st1
    (st2, none, some ⟨RETRY_DELAY_MS * 2 ^ retryCount, retryCount + 1⟩)

/-- Result of one call to `sendToUser`:
`returned` is the boolean result; `invokedCapability` is true iff the
call proceeded past the circuit-breaker check into the downstream
delivery path (user fetch / FCM send). -/
structure SendResult where
  returned : Bool
  state : PushService
  statusWrite : Option StatusWrite
  invokedCapability : Bool
  scheduledRetry : Option RetrySchedule
deriving DecidableEq, Repr

/-- One call to `sendToUser(userId, notification, notificationId, retryCount)`
at absolute time `now`, with the downstream behaviour given by `outcome`.
While the breaker is open: no downstream call, status set to `pending`,
returns false.  While closed: success resets the breaker and records
`delivered`; a disabled user records `failed`; a thrown error goes
through `handleError`. -/
def PushService.sendToUser (now : Nat) (outcome : DeliveryOutcome) (retryCount : Nat)
    (st : PushService) : SendResult :=
  if st.isCircuitOpen then
    ⟨false, st, some StatusWrite.pending, false, none⟩
  else
    match outcome with
    | DeliveryOutcome.delivered =>
        ⟨true, st.resetCircuitBreaker, some StatusWrite.delivered, true, none⟩
    | DeliveryOutcome.pushDisabled =>
        ⟨false, st, some (StatusWrite.failed "User has push disabled or no token"), true, none⟩
    | DeliveryOutcome.deliveryError msg =>
        match st.handleError now msg retryCount with
        | (st2, sw, rs) => ⟨false, st2, sw, true, rs⟩

/-- The model of the `setTimeout` callback scheduled by
`tripCircuitBreaker`: at time `t`, if a reset is pending and its deadline
has elapsed, run `resetCircuitBreaker`. -/
def PushService.fireResetTimer (st : PushService) (t : Nat) : PushService :=
  match st.pendingResetAt with
  | some r => if r ≤ t then st.resetCircuitBreaker else st
  | none => st

/-- Cumulative result of running a notification through `sendToUser` and
the retries scheduled by `handleError` until no further retry is pending.
`completed` is false only when the fuel ran out before the chain ended. -/
structure RunResult where
  finalState : PushService
  invocations : Nat
  statusWrites : List StatusWrite
  retryDelays : List Nat
  completed : Bool
deriving DecidableEq, Repr

/-- Runs the retry chain of one notification: the attempt at index
`attemptIdx` (the oracle assigns each attempt its downstream outcome)
with the given `retryCount` at time `now`, then — if `handleError`
scheduled a retry — the next attempt after the scheduled delay. -/
def PushService.runAttempts (oracle : Nat → DeliveryOutcome) :
    Nat → Nat → Nat → Nat → PushService → RunResult
  | 0, _, _, _, st => ⟨st, 0, [], [], false⟩
  | fuel + 1, attemptIdx, retryCount, now, st =>
    let r := st.sendToUser now (oracle attemptIdx) retryCount
    match r.scheduledRetry with
    | none =>
        ⟨r.state, if r.invokedCapability then 1 else 0, r.statusWrite.toList, [], true⟩
    | some sched =>
        let rest := PushService.runAttempts oracle fuel (attemptIdx + 1) sched.retryCount
          (now + sched.delayMs) r.state
        ⟨rest.finalState, (if r.invokedCapability then 1 else 0) + rest.invocations,
          r.statusWrite.toList ++ rest.statusWrites,
          sched.delayMs :: rest.retryDelays, rest.completed⟩

/-- Applies `n` consecutive failed first attempts (distinct notifications,
each with `retryCount = 0`) at time `now`, threading the breaker state. -/
def PushService.iterateFailures (msg : String) (now : Nat) :
    Nat → PushService → PushService
  | 0, st => st
  | n + 1, st =>
      PushService.iterateFailures msg now n (st.sendToUser now (DeliveryOutcome.deliveryError msg) 0).state

/-! ## A small JSON value model
Used to embed the bodies built by `json.Marshal` (Go gateway) and
`JSON.stringify` (push-service consumer); object fields are kept in
construction order. -/

/-- JSON values; scalar notification variables are modelled as strings. -/
inductive Jval where
  | null
  | str (s : String)
  | num (n : Int)
  | arr (xs : List Jval)
  | obj (fields : List (String × Jval))

/-- Whether a JSON value is an object with a field named `k` (the
JavaScript `k in message` test on the decoded message). -/
def Jval.hasKey (j : Jval) (k : String) : Bool :=
  match j with
  | Jval.obj fs => fs.any (fun f => f.1 == k)
  | _ => false

/-! ## API gateway: request model and validation
Embedding of `internal/models/request.go` and the gin binding tags. -/

/-- `NotificationRequest` (caller-supplied body of POST /notifications);
`variables` values are modelled as opaque strings. -/
structure NotificationRequest where
  type : String
  user_id : String
  priority : String
  template_id : String
  vars : List (String × String)
deriving DecidableEq, Repr

/-- The binding tag `oneof=email push` on `NotificationRequest.Type`. -/
def validType (t : String) : Bool :=
  t == "email" || t == "push"

/-- The binding tag `oneof=high normal low` on `NotificationRequest.Priority`. -/
def validPriority (p : String) : Bool :=
  p == "high" || p == "normal" || p == "low"

/-- `c.ShouldBindJSON(&req)` validation: the four `binding:"required"`
fields must be non-empty and the two enumerations must hold
(`variables` carries no binding tag). -/
def bindsOK (r : NotificationRequest) : Bool :=
  validType r.type && (r.user_id != "") && validPriority r.priority && (r.template_id != "")

/-- `MessageMetadata` attached by the handler (timestamp in ms). -/
structure MessageMetadata where
  ip_address : String
  user_agent : String
  timestamp : Nat
deriving DecidableEq, Repr

/-- `NotificationMessage`, the queue wire envelope built by the handler. -/
structure NotificationMessage where
  notification_id : String
  type : String
  user_id : String
  priority : String
  template_id : String
  vars : List (String × String)
  metadata : MessageMetadata
  retry_count : Nat
  max_retries : Nat
deriving DecidableEq, Repr

/-- `NotificationStatus` as written to Redis by the handler. -/
structure NotificationStatusRec where
  notification_id : String
  type : String
  user_id : String
  status : String
  created_at : Nat
  updated_at : Nat
deriving DecidableEq, Repr

/-- `NotificationResponse`, the data payload of the handler's replies. -/
structure NotificationResponse where
  notification_id : String
  type : String
  status : String
  message : String
deriving DecidableEq, Repr

/-- A handler reply: the HTTP status code, the top-level `Response`
message, and — for success replies — the `NotificationResponse` data. -/
inductive HandlerReply where
  | errorReply (httpCode : Nat) (message : String)
  | successReply (httpCode : Nat) (message : String) (data : NotificationResponse)
deriving DecidableEq, Repr

/-- The HTTP status code of a reply. -/
def HandlerReply.code : HandlerReply → Nat
  | HandlerReply.errorReply c _ => c
  | HandlerReply.successReply c _ _ => c

/-- The `notification_id` carried in a success reply. -/
def HandlerReply.notificationId : HandlerReply → Option String
  | HandlerReply.errorReply _ _ => none
  | HandlerReply.successReply _ _ d => some d.notification_id

/-! ## API gateway: Redis-backed idempotency and status store
Embedding of `internal/cache/redis.go`; entries carry their absolute
expiry time so the TTL semantics are explicit. -/

/-- A stored value with its expiry time (ms since epoch). -/
structure StoreEntry where
  value : String
  expiresAt : Nat
deriving DecidableEq, Repr

/-- A stored status record with its expiry time. -/
structure StatusEntry where
  record : NotificationStatusRec
  expiresAt : Nat
deriving DecidableEq, Repr

/-- The slice of Redis the handler touches. -/
structure RedisStore where
  idempotency : List (String × StoreEntry)
  statuses : List (String × StatusEntry)
deriving DecidableEq, Repr

/-- `GetIdempotencyKey`: returns the stored notification id, or `""`
when the key is absent or its TTL has expired (`redis.Nil` is mapped to
`("", nil)` by the source). -/
def RedisStore.getIdempotencyKey (st : RedisStore) (now : Nat) (key : String) : String :=
  match st.idempotency.lookup key with
  | none => ""
  | some e => if now < e.expiresAt then e.value else ""

/-- `SetIdempotencyKey` with the given TTL (ms). -/
def RedisStore.setIdempotencyKey (st : RedisStore) (key value : String) (now ttl : Nat) :
    RedisStore :=
  { st with idempotency := (key, ⟨value, now + ttl⟩) :: st.idempotency }

/-- `SetNotificationStatus` with the given TTL (ms). -/
def RedisStore.setNotificationStatus (st : RedisStore) (id : String)
    (record : NotificationStatusRec) (now ttl : Nat) : RedisStore :=
  { st with statuses := (id, ⟨record, now + ttl⟩) :: st.statuses }

/-! ## API gateway: publish path
Embedding of `internal/queue/rabbitmq.go` (`Publish`, `setup`) and the
JSON serialization of the envelope per the Go struct tags. -/

/-- `json.Marshal` of `MessageMetadata` per its struct tags. -/
def MessageMetadata.toJson (m : MessageMetadata) : Jval :=
  Jval.obj [("ip_address", Jval.str m.ip_address),
            ("user_agent", Jval.str m.user_agent),
            ("timestamp", Jval.num m.timestamp)]

/-- `json.Marshal` of `NotificationMessage` per its struct tags (the
`vars` field carries the source's `variables`). -/
def NotificationMessage.toJson (m : NotificationMessage) : Jval :=
  Jval.obj [("notification_id", Jval.str m.notification_id),
            ("type", Jval.str m.type),
            ("user_id", Jval.str m.user_id),
            ("priority", Jval.str m.priority),
            ("template_id", Jval.str m.template_id),
            ("variables", Jval.obj (m.vars.map (fun p => (p.1, Jval.str p.2)))),
            ("metadata", m.metadata.toJson),
            ("retry_count", Jval.num m.retry_count),
            ("max_retries", Jval.num m.max_retries)]

/-- The body built by `RabbitMQClient.Publish`: the message wrapped in a
Celery task object `{task, id, args:[message], kwargs:{}, retries:0,
eta:null}` before marshalling. -/
def celeryTaskBody (taskId : String) (message : Jval) : Jval :=
  Jval.obj [("task", Jval.str "send_email_task"),
            ("id", Jval.str taskId),
            ("args", Jval.arr [message]),
            ("kwargs", Jval.obj []),
            ("retries", Jval.num 0),
            ("eta", Jval.null)]

/-- Modelled from the spec (for comparison with the implementation):
"Queue wire envelope (internal, broker-carried): JSON object matching
NotificationEnvelope" — i.e. the published body is the serialization of
the envelope itself, nothing more. -/
def specEnvelopeBody (m : NotificationMessage) : Jval :=
  m.toJson

/-- `RabbitMQClient.Publish(ctx, routingKey, message)`: the pair
(routing key, marshalled body) handed to the broker. -/
def RabbitMQClient.Publish (taskId routingKey : String) (m : NotificationMessage) :
    String × Jval :=
  (routingKey, celeryTaskBody taskId m.toJson)

/-! ## API gateway: POST /notifications handler
Embedding of `NotificationHndler.CreateNotifiation` (handlers package).
Inputs that come from the request context or the runtime are explicit
parameters: the fresh UUID, the client IP / user agent, the current time
(ms), whether the broker publish succeeds, and the Celery task id. -/

/-- The idempotency-record TTL used by the handler: `24 * time.Hour`. -/
def IDEMPOTENCY_TTL_MS : Nat := 86400000

/-- The status-record TTL used by the handler: `7 * 24 * time.Hour`. -/
def STATUS_TTL_MS : Nat := 604800000

/-- The observable state the handler touches: the Redis store and the
list of (routing key, body) messages published to the broker. -/
structure GatewayState where
  redis : RedisStore
  published : List (String × Jval)

/-- The publish-and-respond tail of `CreateNotifiation` (everything after
the idempotency branch): builds the envelope, publishes it (500 on
failure), writes the initial pending status and replies 202. -/
def publishAndRespond (st : GatewayState) (req : NotificationRequest)
    (notificationID clientIP userAgent : String) (publishOk : Bool) (taskId : String)
    (now : Nat) : HandlerReply × GatewayState :=
  let message : NotificationMessage :=
    { notification_id := notificationID, type := req.type, user_id := req.user_id,
      priority := req.priority, template_id := req.template_id, vars := req.vars,
      metadata := ⟨clientIP, userAgent, now⟩, retry_count := 0, max_retries := 3 }
  let routingKey := req.type
  if publishOk then
    let st1 : GatewayState :=
      { st with published := st.published ++ [RabbitMQClient.Publish taskId routingKey message] }
    let statusRec : NotificationStatusRec :=
      { notification_id := notificationID, type := req.type, user_id := req.user_id,
        status := "pending", created_at := now, updated_at := now }
    let st2 : GatewayState :=
      { st1 with redis := st1.redis.setNotificationStatus notificationID statusRec now STATUS_TTL_MS }
    (HandlerReply.successReply 202 "Notification request accepted"
      ⟨notificationID, req.type, "pending", "Notification queued for processing"⟩, st2)
  else
    (HandlerReply.errorReply 500 "Failed to queue notification", st)

/-- `CreateNotifiation`: bind/validate the body (400 on failure), resolve
the idempotency key (200 with the stored id on a duplicate; otherwise
store key → fresh id for 24h before publishing), then publish and
respond.  `idempotentKey = ""` models an absent X-Idempotency-Key
header. -/
def CreateNotifiation (st : GatewayState) (req : NotificationRequest)
    (idempotentKey notificationID clientIP userAgent : String) (publishOk : Bool)
    (taskId : String) (now : Nat) : HandlerReply × GatewayState :=
  if bindsOK req then
    if idempotentKey != "" then
      let existingID := st.redis.getIdempotencyKey now idempotentKey
      if existingID != "" then
        (HandlerReply.successReply 200 "Notification already processed (idempotent)"
          ⟨existingID, req.type, "pending", "Notification request accepted (duplicate request)"⟩,
         st)
      else
        let st1 : GatewayState :=
          { st with redis := st.redis.setIdempotencyKey idempotentKey notificationID now IDEMPOTENCY_TTL_MS }
        publishAndRespond st1 req notificationID clientIP userAgent publishOk taskId now
    else
      publishAndRespond st req notificationID clientIP userAgent publishOk taskId now
  else
    (HandlerReply.errorReply 400 "Invalid request body", st)

/-! ## Queue-fabric topology setup
Embedding of `RabbitMQClient.setup` (Go gateway) and `setupQueues`
(push-service `rabbitmq.ts`), as lists of declaration operations. -/

/-- A topology declaration issued to the broker. -/
inductive QueueOp where
  | exchangeDeclare (name kind : String) (durable : Bool)
  | queueDeclare (name : String) (durable : Bool) (args : List (String × Jval))
  | queueBind (queueName routingKey exchange : String)

/-- The gateway's per-queue bind step: every queue in the slice is bound
to the exchange with its routing key, except the failed queue. -/
def bindIfNotFailed (q routingKey exchange failedQueue : String) : List QueueOp :=
  if q != failedQueue then [QueueOp.queueBind q routingKey exchange] else []

/-- `RabbitMQClient.setup`: declares the durable direct exchange, then
declares each of the three durable queues with `nil` arguments, binding
the email and push queues with routing keys "email" and "push" and
skipping the bind for the failed queue. -/
def RabbitMQClient.setup (exchange emailQueue pushQueue failedQueue : String) :
    List QueueOp :=
  [QueueOp.exchangeDeclare exchange "direct" true,
   QueueOp.queueDeclare emailQueue true []] ++
  bindIfNotFailed emailQueue "email" exchange failedQueue ++
  [QueueOp.queueDeclare pushQueue true []] ++
  bindIfNotFailed pushQueue "push" exchange failedQueue ++
  [QueueOp.queueDeclare failedQueue true []] ++
  bindIfNotFailed failedQueue "failed" exchange failedQueue

/-- Gateway config default `RABBITMQ_EXCHANGE`. -/
def RABBITMQ_EXCHANGE : String := "notification.direct"

/-- Gateway config default `RABBITMQ_EMAIL_QUEUE`. -/
def EMAIL_QUEUE : String := "email.queue"

/-- Push-service and gateway default `PUSH_QUEUE`. -/
def PUSH_QUEUE : String := "push.queue"

/-- Push-service and gateway default `FAILED_QUEUE`. -/
def FAILED_QUEUE : String := "failed.queue"

/-- Push-service `setupQueues`: asserts the push queue (durable, 24h
message TTL, dead-letter to the failed queue via the default exchange)
and the failed queue (durable, no arguments). -/
def setupQueues : List QueueOp :=
  [QueueOp.queueDeclare PUSH_QUEUE true
     [("x-message-ttl", Jval.num 86400000),
      ("x-dead-letter-exchange", Jval.str ""),
      ("x-dead-letter-routing-key", Jval.str FAILED_QUEUE)],
   QueueOp.queueDeclare FAILED_QUEUE true []]

/-- Whether an operation declares the queue named `q`. -/
def QueueOp.declaresQueue (op : QueueOp) (q : String) : Bool :=
  match op with
  | QueueOp.queueDeclare name _ _ => name == q
  | _ => false

/-- The argument keys of a queue declaration (empty for other ops). -/
def QueueOp.argKeys (op : QueueOp) : List String :=
  match op with
  | QueueOp.queueDeclare _ _ args => args.map Prod.fst
  | _ => []

/-- Whether any operation in `ops` declares queue `q` with an
`x-message-ttl` argument. -/
def declaresQueueWithTTL (ops : List QueueOp) (q : String) : Bool :=
  ops.any fun op => op.declaresQueue q && op.argKeys.contains "x-message-ttl"

/-- Whether any operation in `ops` binds queue `q` to exchange `ex`. -/
def bindsQueueTo (ops : List QueueOp) (q ex : String) : Bool :=
  ops.any fun op =>
    match op with
    | QueueOp.queueBind name _ e => name == q && e == ex
    | _ => false

/-! ## Push-service consumer: ack / nack / dead-letter path
Embedding of `setupConsumer` (rabbitmq.ts) and `processPushNotification`
/ `moveToFailedQueue` (queue.service). -/

/-- A JavaScript error as serialized into the failed-queue payload. -/
structure ErrInfo where
  name : String
  message : String
  stack : String
deriving DecidableEq, Repr

/-- The payload `moveToFailedQueue` publishes: the original message under
the key "message", the error fields, and an ISO timestamp. -/
def failedQueuePayload (msg : Jval) (e : ErrInfo) (ts : String) : Jval :=
  Jval.obj [("message", msg),
            ("error", Jval.obj [("name", Jval.str e.name),
                                ("message", Jval.str e.message),
                                ("stack", Jval.str e.stack)]),
            ("timestamp", Jval.str ts)]

/-- An observable broker action of the consumer callback. -/
inductive ConsumerEffect where
  | ack
  | nack (multiple requeue : Bool)
  | failedQueuePublish (queue : String) (payload : Jval)

/-- `moveToFailedQueue(message, error)`: asserts the failed queue and
publishes the error payload; when the channel is unavailable or the send
fails, the failure is swallowed and only logged (no broker effect). -/
def moveToFailedQueue (chanOk sendOk : Bool) (msg : Jval) (e : ErrInfo) (ts : String) :
    List ConsumerEffect :=
  if chanOk && sendOk then
    [ConsumerEffect.failedQueuePublish FAILED_QUEUE (failedQueuePayload msg e ts)]
  else
    []

/-- Behaviour of the opaque per-message processing (the push-service
calls behind `processPushNotification`'s dispatch): success, or a thrown
error. -/
inductive HandlerOutcome where
  | success
  | failure (e : ErrInfo)
deriving DecidableEq, Repr

/-- The error thrown on a message that is neither the API-gateway format
nor the legacy device-token format. -/
def invalidFormatError : ErrInfo :=
  ⟨"Error", "Invalid message format: missing user_id/template_code or deviceToken", ""⟩

/-- `processPushNotification(message)`: dispatches on the decoded shape
(gateway format when `user_id` and `template_code` are present, legacy
format when `deviceToken` is present, otherwise throws); on any error it
first calls `moveToFailedQueue` and then re-throws.  Returns the error
(if any) and the broker effects performed. -/
def processPushNotification (msg : Jval) (outcome : HandlerOutcome) (chanOk sendOk : Bool)
    (ts : String) : Option ErrInfo × List ConsumerEffect :=
  if msg.hasKey "user_id" && msg.hasKey "template_code" then
    match outcome with
    | HandlerOutcome.success => (none, [])
    | HandlerOutcome.failure e => (some e, moveToFailedQueue chanOk sendOk msg e ts)
  else if msg.hasKey "deviceToken" then
    match outcome with
    | HandlerOutcome.success => (none, [])
    | HandlerOutcome.failure e => (some e, moveToFailedQueue chanOk sendOk msg e ts)
  else
    (some invalidFormatError, moveToFailedQueue chanOk sendOk msg invalidFormatError ts)

/-- A message as handed to the consumer callback: either its content
fails `JSON.parse`, or it decodes to a JSON value. -/
inductive RawMessage where
  | malformed
  | parsed (msg : Jval)

/-- The consumer callback of `setupConsumer`: parse the content, run
`processPushNotification`, ack on success; on any throw (parse failure
included) nack with `requeue = false`. -/
def consumeMessage (raw : RawMessage) (outcome : HandlerOutcome) (chanOk sendOk : Bool)
    (ts : String) : List ConsumerEffect :=
  match raw with
  | RawMessage.malformed => [ConsumerEffect.nack false false]
  | RawMessage.parsed msg =>
    match processPushNotification msg outcome chanOk sendOk ts with
    | (none, effs) => effs ++ [ConsumerEffect.ack]
    | (some _, effs) => effs ++ [ConsumerEffect.nack false false]

/-- Whether an effect is an acknowledgment. -/
def ConsumerEffect.isAck : ConsumerEffect → Bool
  | ConsumerEffect.ack => true
  | _ => false

/-- Whether an effect is a negative acknowledgment. -/
def ConsumerEffect.isNack : ConsumerEffect → Bool
  | ConsumerEffect.nack _ _ => true
  | _ => false

/-- Whether an effect settles the message with the broker (ack or nack). -/
def ConsumerEffect.isTerminal (e : ConsumerEffect) : Bool :=
  e.isAck || e.isNack

/-- Whether an effect is a nack with `requeue = true` (never emitted). -/
def ConsumerEffect.isRequeue : ConsumerEffect → Bool
  | ConsumerEffect.nack _ requeue => requeue
  | _ => false

/-! ## Concrete scenario instances -/

/-- A delivery capability that fails twice and then succeeds. -/
def failTwiceOracle : Nat → DeliveryOutcome :=
  fun i => if i < 2 then DeliveryOutcome.deliveryError "provider unavailable"
           else DeliveryOutcome.delivered

/-- The retry chain of one notification against `failTwiceOracle`,
starting from the initial breaker state. -/
def failTwiceRun : RunResult :=
  PushService.runAttempts failTwiceOracle 5 0 0 0 PushService.init

/-- A delivery capability that always fails. -/
def alwaysFailOracle : Nat → DeliveryOutcome :=
  fun _ => DeliveryOutcome.deliveryError "provider down"

/-- The retry chain of one notification against `alwaysFailOracle`,
starting from the initial breaker state. -/
def alwaysFailRun : RunResult :=
  PushService.runAttempts alwaysFailOracle 6 0 0 0 PushService.init

/-- The breaker state after five consecutive failed first attempts
starting at time `t` from the initial state. -/
def fiveFailuresState (t : Nat) : PushService :=
  PushService.iterateFailures "downstream error" t 5 PushService.init

/-- A Redis store holding an unexpired idempotency record for "k1". -/
def dupStore : RedisStore :=
  ⟨[("k1", ⟨"nid-orig", 86400000⟩)], []⟩

/-- A gateway state with `dupStore` and nothing published yet. -/
def dupState : GatewayState :=
  ⟨dupStore, []⟩

/-- A well-formed push request (the concrete scenario of the spec). -/
def dupReq : NotificationRequest :=
  ⟨"push", "u1", "high", "welcome", [("name", "Ann")]⟩

/-- A concrete envelope, as the handler builds it. -/
def exEnvelope : NotificationMessage :=
  ⟨"nid-1", "email", "u1", "high", "welcome", [("name", "Ann")], ⟨"1.2.3.4", "curl", 0⟩, 0, 3⟩

/-- All topology declarations issued against the broker by the gateway
(default config names) and the push service together. -/
def fabricSetupOps : List QueueOp :=
  RabbitMQClient.setup RABBITMQ_EXCHANGE EMAIL_QUEUE PUSH_QUEUE FAILED_QUEUE ++ setupQueues

/-- A decoded queue message in the API-gateway format. -/
def exQueueMsg : Jval :=
  Jval.obj [("user_id", Jval.str "u1"), ("template_code", Jval.str "welcome"),
            ("request_id", Jval.str "r1")]

/-- A concrete processing error. -/
def exErr : ErrInfo :=
  ⟨"Error", "FCM send failed", "stack trace"⟩

/-! ## Theorems -/

/-- C2: After 5 consecutive delivery failures the circuit breaker is
open with a reset scheduled `CIRCUIT_RESET_TIMEOUT` (60s) ahead; while
open, `sendToUser` does not invoke the downstream capability, writes
status `pending` and returns false, leaving the state unchanged; once
the reset deadline has elapsed the timer closes the breaker with
`failureCount = 0`, and the subsequent attempt invokes the capability. -/
theorem circuit_breaker_trip_and_reset
    (t tFire now now2 rc rc2 : Nat) (st : PushService) (out out2 : DeliveryOutcome)
    (hopen : st.isCircuitOpen = true)
    (helapsed : t + CIRCUIT_RESET_TIMEOUT ≤ tFire) :
    (fiveFailuresState t).isCircuitOpen = true
    ∧ (fiveFailuresState t).pendingResetAt = some (t + CIRCUIT_RESET_TIMEOUT)
    ∧ st.sendToUser now out rc = ⟨false, st, some StatusWrite.pending, false, none⟩
    ∧ (fiveFailuresState t).fireResetTimer tFire = PushService.init
    ∧ (((fiveFailuresState t).fireResetTimer tFire).sendToUser now2 out2 rc2).invokedCapability
        = true := by
  have h5 : fiveFailuresState t = ⟨true, 5, some (t + CIRCUIT_RESET_TIMEOUT)⟩ := rfl
  refine ⟨by rw [h5], by rw [h5], ?_, ?_, ?_⟩
  · simp [PushService.sendToUser, hopen]
  · rw [h5]
    simp [PushService.fireResetTimer, helapsed, PushService.resetCircuitBreaker, PushService.init]
  · rw [h5]
    simp only [PushService.fireResetTimer, helapsed, if_pos]
    cases out2 <;>
      simp [PushService.sendToUser, PushService.resetCircuitBreaker, PushService.handleError]

/-- C2 witness: the theorem instantiated at `t = 0`, `tFire = 60000`,
an open breaker state, and concrete attempts. -/
theorem circuit_breaker_trip_and_reset_witness :
    (fiveFailuresState 0).isCircuitOpen = true
    ∧ (fiveFailuresState 0).pendingResetAt = some (0 + CIRCUIT_RESET_TIMEOUT)
    ∧ (PushService.sendToUser 7 DeliveryOutcome.delivered 0 ⟨true, 5, some 60000⟩)
        = ⟨false, ⟨true, 5, some 60000⟩, some StatusWrite.pending, false, none⟩
    ∧ (fiveFailuresState 0).fireResetTimer 60000 = PushService.init
    ∧ (((fiveFailuresState 0).fireResetTimer 60000).sendToUser 8 DeliveryOutcome.delivered 0).invokedCapability = true :=
  circuit_breaker_trip_and_reset 0 60000 7 8 0 0 ⟨true, 5, some 60000⟩
    DeliveryOutcome.delivered DeliveryOutcome.delivered rfl (by decide)

/-- C3: a delivery failure with `retryCount < MAX_RETRIES` (breaker
closed) schedules a retry after `RETRY_DELAY_MS * 2 ^ retryCount` with
the count incremented; and against a capability that fails twice then
succeeds, the notification ends with status `delivered`, the capability
is invoked exactly 3 times, and the delays between attempts are
1000 ms then 2000 ms — exponentially increasing. -/
theorem exponential_backoff_retry
    (now rc : Nat) (msg : String) (st : PushService)
    (hclosed : st.isCircuitOpen = false) (hrc : rc < MAX_RETRIES) :
    (st.sendToUser now (DeliveryOutcome.deliveryError msg) rc).scheduledRetry
        = some ⟨RETRY_DELAY_MS * 2 ^ rc, rc + 1⟩
    ∧ failTwiceRun.statusWrites = [StatusWrite.delivered]
    ∧ failTwiceRun.invocations = 3
    ∧ failTwiceRun.retryDelays = [RETRY_DELAY_MS * 2 ^ 0, RETRY_DELAY_MS * 2 ^ 1]
    ∧ failTwiceRun.retryDelays = [1000, 2000]
    ∧ failTwiceRun.completed = true := by
  refine ⟨?_, by decide, by decide, by decide, by decide, by decide⟩
  simp [PushService.sendToUser, hclosed, PushService.handleError, Nat.not_le.mpr hrc]

/-- C3 witness: the theorem instantiated at a concrete closed state and
`retryCount = 1`. -/
theorem exponential_backoff_retry_witness :
    (PushService.sendToUser 5 (DeliveryOutcome.deliveryError "oops") 1 PushService.init).scheduledRetry
        = some ⟨RETRY_DELAY_MS * 2 ^ 1, 2⟩
    ∧ failTwiceRun.statusWrites = [StatusWrite.delivered]
    ∧ failTwiceRun.invocations = 3
    ∧ failTwiceRun.retryDelays = [RETRY_DELAY_MS * 2 ^ 0, RETRY_DELAY_MS * 2 ^ 1]
    ∧ failTwiceRun.retryDelays = [1000, 2000]
    ∧ failTwiceRun.completed = true :=
  exponential_backoff_retry 5 1 "oops" PushService.init rfl (by decide)

/-- C4: `handleError` at `retryCount ≥ MAX_RETRIES` writes status
`failed` with the non-empty message "Max retries reached: …" and
schedules no retry; and against an always-failing capability the run
from a clean state ends with exactly that failed status, 4 capability
invocations (the first attempt plus `MAX_RETRIES` retries), and no
further attempt pending. -/
theorem max_retry_terminal_failure
    (now rc : Nat) (msg : String) (st : PushService)
    (hrc : MAX_RETRIES ≤ rc) :
    st.handleError now msg rc
        = (st, some (StatusWrite.failed ("Max retries reached: " ++ msg)), none)
    ∧ alwaysFailRun.statusWrites = [StatusWrite.failed "Max retries reached: provider down"]
    ∧ "Max retries reached: provider down" ≠ ""
    ∧ alwaysFailRun.invocations = 4
    ∧ alwaysFailRun.completed = true := by
  refine ⟨?_, by decide, by decide, by decide, by decide⟩
  simp [PushService.handleError, hrc]

/-- C4 witness: the theorem instantiated at `retryCount = 3`. -/
theorem max_retry_terminal_failure_witness :
    PushService.handleError 9 "provider down" 3 PushService.init
        = (PushService.init, some (StatusWrite.failed ("Max retries reached: " ++ "provider down")), none)
    ∧ alwaysFailRun.statusWrites = [StatusWrite.failed "Max retries reached: provider down"]
    ∧ "Max retries reached: provider down" ≠ ""
    ∧ alwaysFailRun.invocations = 4
    ∧ alwaysFailRun.completed = true :=
  max_retry_terminal_failure 9 3 "provider down" PushService.init (by decide)

/-- C10: a delivery failure whose `retryCount` has already reached
`MAX_RETRIES` leaves the breaker state (failure count and open flag)
untouched — `handleError` returns after the terminal failed status,
before the circuit-breaker increment — while a failure with retries
remaining increments `failureCount` by one. -/
theorem terminal_failure_does_not_feed_breaker
    (now rc : Nat) (msg : String) (st : PushService) :
    (MAX_RETRIES ≤ rc → (st.handleError now msg rc).1 = st)
    ∧ (MAX_RETRIES ≤ rc →
        (st.handleError now msg rc).2
          = (some (StatusWrite.failed ("Max retries reached: " ++ msg)), none))
    ∧ (rc < MAX_RETRIES →
        (st.handleError now msg rc).1.failureCount = st.failureCount + 1) := by
  refine ⟨fun h => ?_, fun h => ?_, fun h => ?_⟩
  · simp [PushService.handleError, h]
  · simp [PushService.handleError, h]
  · simp only [PushService.handleError, Nat.not_le.mpr h, if_false, if_neg]
    split <;> simp [PushService.tripCircuitBreaker]

/-- C10 witness: the theorem instantiated at `retryCount = 3` (terminal
conjuncts) and `retryCount = 2` (increment conjunct) on a state with two
prior failures, each antecedent discharged. -/
theorem terminal_failure_does_not_feed_breaker_witness :
    (PushService.handleError 4 "err" 3 ⟨false, 2, none⟩).1 = ⟨false, 2, none⟩
    ∧ (PushService.handleError 4 "err" 3 ⟨false, 2, none⟩).2
        = (some (StatusWrite.failed ("Max retries reached: " ++ "err")), none)
    ∧ (PushService.handleError 4 "err" 2 ⟨false, 2, none⟩).1.failureCount = 2 + 1 :=
  ⟨(terminal_failure_does_not_feed_breaker 4 3 "err" ⟨false, 2, none⟩).1 (by decide),
   (terminal_failure_does_not_feed_breaker 4 3 "err" ⟨false, 2, none⟩).2.1 (by decide),
   (terminal_failure_does_not_feed_breaker 4 2 "err" ⟨false, 2, none⟩).2.2 (by decide)⟩

/-- C8: a request whose `type` is outside the enumeration or whose
`priority` is outside the enumeration is rejected with the 400 reply and
the gateway state is returned unchanged — no publish, no idempotency
write, no status write. -/
theorem enumeration_validation_no_side_effects
    (st : GatewayState) (req : NotificationRequest)
    (key nid ip ua tid : String) (pub : Bool) (now : Nat)
    (h : validType req.type = false ∨ validPriority req.priority = false) :
    CreateNotifiation st req key nid ip ua pub tid now
      = (HandlerReply.errorReply 400 "Invalid request body", st) := by
  have hb : bindsOK req = false := by
    rcases h with h | h <;> simp [bindsOK, h]
  simp [CreateNotifiation, hb]

/-- C8 witness: a request with `type = "sms"` (and one with
`priority = "urgent"`) is rejected without side effects. -/
theorem enumeration_validation_no_side_effects_witness :
    CreateNotifiation dupState ⟨"sms", "u1", "high", "welcome", []⟩ "" "nid-9" "ip" "ua" true "t1" 0
      = (HandlerReply.errorReply 400 "Invalid request body", dupState) :=
  enumeration_validation_no_side_effects dupState ⟨"sms", "u1", "high", "welcome", []⟩
    "" "nid-9" "ip" "ua" "t1" true 0 (Or.inl (by decide))

/-- C1: submitting twice with the same non-empty idempotency key inside
the 24h TTL window: the first call replies 202 with the fresh id and the
second replies with the **same** id; the second call leaves the gateway
state completely unchanged (no new publish, no new idempotency record,
no new status record); across the pair exactly one message is published
and exactly one status record is created. -/
theorem idempotent_duplicate_submission
    (st : GatewayState) (req req2 : NotificationRequest)
    (key nid1 nid2 ip1 ua1 ip2 ua2 tid1 tid2 : String) (pub2 : Bool)
    (now1 now2 : Nat)
    (hb1 : bindsOK req = true) (hb2 : bindsOK req2 = true)
    (hkey : key ≠ "") (hnid : nid1 ≠ "")
    (habsent : st.redis.getIdempotencyKey now1 key = "")
    (hwin : now2 < now1 + IDEMPOTENCY_TTL_MS) :
    (CreateNotifiation st req key nid1 ip1 ua1 true tid1 now1).1
      = HandlerReply.successReply 202 "Notification request accepted"
          ⟨nid1, req.type, "pending", "Notification queued for processing"⟩
    ∧ (CreateNotifiation (CreateNotifiation st req key nid1 ip1 ua1 true tid1 now1).2
           req2 key nid2 ip2 ua2 pub2 tid2 now2).1
      = HandlerReply.successReply 200 "Notification already processed (idempotent)"
          ⟨nid1, req2.type, "pending", "Notification request accepted (duplicate request)"⟩
    ∧ (CreateNotifiation (CreateNotifiation st req key nid1 ip1 ua1 true tid1 now1).2
           req2 key nid2 ip2 ua2 pub2 tid2 now2).2
      = (CreateNotifiation st req key nid1 ip1 ua1 true tid1 now1).2
    ∧ (CreateNotifiation st req key nid1 ip1 ua1 true tid1 now1).2.published
      = st.published ++ [RabbitMQClient.Publish tid1 req.type
          ⟨nid1, req.type, req.user_id, req.priority, req.template_id, req.vars,
            ⟨ip1, ua1, now1⟩, 0, 3⟩]
    ∧ (CreateNotifiation st req key nid1 ip1 ua1 true tid1 now1).2.redis.statuses.length
      = st.redis.statuses.length + 1 := by
  have hkey' : (key != "") = true := bne_iff_ne.mpr hkey
  have hnid' : (nid1 != "") = true := bne_iff_ne.mpr hnid
  have h1 : CreateNotifiation st req key nid1 ip1 ua1 true tid1 now1
      = (HandlerReply.successReply 202 "Notification request accepted"
          ⟨nid1, req.type, "pending", "Notification queued for processing"⟩,
         ⟨⟨(key, ⟨nid1, now1 + IDEMPOTENCY_TTL_MS⟩) :: st.redis.idempotency,
           (nid1, ⟨⟨nid1, req.type, req.user_id, "pending", now1, now1⟩,
             now1 + STATUS_TTL_MS⟩) :: st.redis.statuses⟩,
          st.published ++ [RabbitMQClient.Publish tid1 req.type
            ⟨nid1, req.type, req.user_id, req.priority, req.template_id, req.vars,
              ⟨ip1, ua1, now1⟩, 0, 3⟩]⟩) := by
    simp [CreateNotifiation, hb1, hkey', habsent, publishAndRespond,
      RedisStore.setIdempotencyKey, RedisStore.setNotificationStatus]
  have h2 : (RedisStore.getIdempotencyKey
      ⟨(key, ⟨nid1, now1 + IDEMPOTENCY_TTL_MS⟩) :: st.redis.idempotency,
       (nid1, ⟨⟨nid1, req.type, req.user_id, "pending", now1, now1⟩,
         now1 + STATUS_TTL_MS⟩) :: st.redis.statuses⟩ now2 key) = nid1 := by
    simp [RedisStore.getIdempotencyKey, List.lookup, hwin]
  refine ⟨by rw [h1], ?_, ?_, by rw [h1], by rw [h1]; simp⟩
  · rw [h1]
    simp [CreateNotifiation, hb2, hkey', h2, hnid']
  · rw [h1]
    simp [CreateNotifiation, hb2, hkey', h2, hnid']

/-- C1 witness: the theorem at an empty gateway state, key "k1" and the
concrete push request, second submission 1s later. -/
theorem idempotent_duplicate_submission_witness :
    (CreateNotifiation ⟨⟨[], []⟩, []⟩ dupReq "k1" "nid-1" "ip1" "ua1" true "t1" 0).1
      = HandlerReply.successReply 202 "Notification request accepted"
          ⟨"nid-1", dupReq.type, "pending", "Notification queued for processing"⟩
    ∧ (CreateNotifiation (CreateNotifiation ⟨⟨[], []⟩, []⟩ dupReq "k1" "nid-1" "ip1" "ua1" true "t1" 0).2
           dupReq "k1" "nid-2" "ip2" "ua2" false "t2" 1000).1
      = HandlerReply.successReply 200 "Notification already processed (idempotent)"
          ⟨"nid-1", dupReq.type, "pending", "Notification request accepted (duplicate request)"⟩
    ∧ (CreateNotifiation (CreateNotifiation ⟨⟨[], []⟩, []⟩ dupReq "k1" "nid-1" "ip1" "ua1" true "t1" 0).2
           dupReq "k1" "nid-2" "ip2" "ua2" false "t2" 1000).2
      = (CreateNotifiation ⟨⟨[], []⟩, []⟩ dupReq "k1" "nid-1" "ip1" "ua1" true "t1" 0).2
    ∧ (CreateNotifiation ⟨⟨[], []⟩, []⟩ dupReq "k1" "nid-1" "ip1" "ua1" true "t1" 0).2.published
      = ([] : List (String × Jval)) ++ [RabbitMQClient.Publish "t1" dupReq.type
          ⟨"nid-1", dupReq.type, dupReq.user_id, dupReq.priority, dupReq.template_id, dupReq.vars,
            ⟨"ip1", "ua1", 0⟩, 0, 3⟩]
    ∧ (CreateNotifiation ⟨⟨[], []⟩, []⟩ dupReq "k1" "nid-1" "ip1" "ua1" true "t1" 0).2.redis.statuses.length
      = ([] : List (String × StatusEntry)).length + 1 :=
  idempotent_duplicate_submission ⟨⟨[], []⟩, []⟩ dupReq dupReq "k1" "nid-1" "nid-2"
    "ip1" "ua1" "ip2" "ua2" "t1" "t2" false 0 1000
    (by decide) (by decide) (by decide) (by decide) (by decide) (by decide)

/-- C9 counterexample: a valid duplicate submission (idempotency key
"k1" already stored and unexpired) succeeds — it carries the stored
notification id — but responds with HTTP 200, not 202. -/
theorem duplicate_submission_returns_200_not_202 :
    (CreateNotifiation dupState dupReq "k1" "nid-2" "ip" "ua" true "t1" 0).1.notificationId
      = some "nid-orig"
    ∧ (CreateNotifiation dupState dupReq "k1" "nid-2" "ip" "ua" true "t1" 0).1.code = 200
    ∧ (CreateNotifiation dupState dupReq "k1" "nid-2" "ip" "ua" true "t1" 0).1.code ≠ 202 := by
  refine ⟨by decide, by decide, by decide⟩

/-- C9 amended: a fresh accepted submission replies 202 with body
`{notification_id, type, status:"pending", message}`; a duplicate
resolved via the idempotency key replies 200 with the same body shape
(the stored id); validation failure replies 400; publish failure on a
fresh submission replies 500. -/
theorem response_codes_of_create
    (st : GatewayState) (req : NotificationRequest) (key nid ip ua tid : String)
    (pub : Bool) (now : Nat) (ex : String)
    (hb : bindsOK req = true) :
    (st.redis.getIdempotencyKey now key = "" →
      (CreateNotifiation st req key nid ip ua true tid now).1
        = HandlerReply.successReply 202 "Notification request accepted"
            ⟨nid, req.type, "pending", "Notification queued for processing"⟩)
    ∧ (st.redis.getIdempotencyKey now key = "" →
      (CreateNotifiation st req key nid ip ua false tid now).1
        = HandlerReply.errorReply 500 "Failed to queue notification")
    ∧ (key ≠ "" → st.redis.getIdempotencyKey now key = ex → ex ≠ "" →
      (CreateNotifiation st req key nid ip ua pub tid now).1
        = HandlerReply.successReply 200 "Notification already processed (idempotent)"
            ⟨ex, req.type, "pending", "Notification request accepted (duplicate request)"⟩)
    ∧ (∀ req2 : NotificationRequest, bindsOK req2 = false →
      (CreateNotifiation st req2 key nid ip ua pub tid now).1
        = HandlerReply.errorReply 400 "Invalid request body") := by
  refine ⟨fun habs => ?_, fun habs => ?_, fun hk hex hexne => ?_, fun req2 hb2 => ?_⟩
  · by_cases hk : key = ""
    · simp [CreateNotifiation, hb, hk, publishAndRespond]
    · simp [CreateNotifiation, hb, bne_iff_ne.mpr hk, habs, publishAndRespond]
  · by_cases hk : key = ""
    · simp [CreateNotifiation, hb, hk, publishAndRespond]
    · simp [CreateNotifiation, hb, bne_iff_ne.mpr hk, habs, publishAndRespond]
  · simp [CreateNotifiation, hb, bne_iff_ne.mpr hk, hex, bne_iff_ne.mpr hexne]
  · simp [CreateNotifiation, hb2]

/-- C9 amended witness: all four cases at concrete inputs (fresh key
"k9" on `dupState`, the stored duplicate "k1", and an invalid type). -/
theorem response_codes_of_create_witness :
    (CreateNotifiation dupState dupReq "k9" "nid-5" "ip" "ua" true "t1" 0).1
      = HandlerReply.successReply 202 "Notification request accepted"
          ⟨"nid-5", dupReq.type, "pending", "Notification queued for processing"⟩
    ∧ (CreateNotifiation dupState dupReq "k9" "nid-5" "ip" "ua" false "t1" 0).1
      = HandlerReply.errorReply 500 "Failed to queue notification"
    ∧ (CreateNotifiation dupState dupReq "k1" "nid-5" "ip" "ua" true "t1" 0).1
      = HandlerReply.successReply 200 "Notification already processed (idempotent)"
          ⟨"nid-orig", dupReq.type, "pending", "Notification request accepted (duplicate request)"⟩
    ∧ (CreateNotifiation dupState ⟨"sms", "u1", "high", "w", []⟩ "k1" "nid-5" "ip" "ua" true "t1" 0).1
      = HandlerReply.errorReply 400 "Invalid request body" :=
  ⟨(response_codes_of_create dupState dupReq "k9" "nid-5" "ip" "ua" "t1" true 0 ""
      (by decide)).1 (by decide),
   (response_codes_of_create dupState dupReq "k9" "nid-5" "ip" "ua" "t1" true 0 ""
      (by decide)).2.1 (by decide),
   (response_codes_of_create dupState dupReq "k1" "nid-5" "ip" "ua" "t1" true 0 "nid-orig"
      (by decide)).2.2.1 (by decide) (by decide) (by decide),
   (response_codes_of_create dupState dupReq "k1" "nid-5" "ip" "ua" "t1" true 0 ""
      (by decide)).2.2.2 ⟨"sms", "u1", "high", "w", []⟩ (by decide)⟩

/-- C6 counterexample: the body `Publish` hands to the broker is not the
JSON serialization of the envelope itself — it has a top-level "task"
key and no top-level "notification_id" key, unlike the envelope. -/
theorem published_body_is_not_bare_envelope :
    (RabbitMQClient.Publish "t1" "email" exEnvelope).2.hasKey "task" = true
    ∧ (RabbitMQClient.Publish "t1" "email" exEnvelope).2.hasKey "notification_id" = false
    ∧ (specEnvelopeBody exEnvelope).hasKey "notification_id" = true
    ∧ (RabbitMQClient.Publish "t1" "email" exEnvelope).2 ≠ specEnvelopeBody exEnvelope := by
  refine ⟨rfl, rfl, rfl, fun h => ?_⟩
  exact absurd (congrArg (fun j => j.hasKey "task") h) (by decide)

/-- C6 amended: for every accepted fresh submission, the message body
published onto the broker is the Celery-task wrapper
`{task:"send_email_task", id, args:[envelope], kwargs:{}, retries:0,
eta:null}` whose `args[0]` is the JSON serialization of the
NotificationEnvelope `{notification_id, type, user_id, priority,
template_id, variables, metadata{ip_address, user_agent, timestamp},
retry_count:0, max_retries:3}`, published with routing key equal to the
request's `type`. -/
theorem publish_wraps_envelope_in_celery_task
    (st : GatewayState) (req : NotificationRequest) (key nid ip ua tid : String)
    (now : Nat)
    (hb : bindsOK req = true)
    (habsent : st.redis.getIdempotencyKey now key = "") :
    (CreateNotifiation st req key nid ip ua true tid now).2.published
      = st.published ++ [(req.type, celeryTaskBody tid (NotificationMessage.toJson
          ⟨nid, req.type, req.user_id, req.priority, req.template_id, req.vars,
            ⟨ip, ua, now⟩, 0, 3⟩))] := by
  by_cases hk : key = ""
  · simp [CreateNotifiation, hb, hk, publishAndRespond, RabbitMQClient.Publish,
      RedisStore.setNotificationStatus]
  · simp [CreateNotifiation, hb, bne_iff_ne.mpr hk, habsent, publishAndRespond,
      RabbitMQClient.Publish, RedisStore.setIdempotencyKey, RedisStore.setNotificationStatus]

/-- C6 amended witness: the theorem at an empty state and the concrete
push request (routing key "push"). -/
theorem publish_wraps_envelope_in_celery_task_witness :
    (CreateNotifiation ⟨⟨[], []⟩, []⟩ dupReq "" "nid-1" "ip" "ua" true "t1" 5).2.published
      = ([] : List (String × Jval)) ++ [(dupReq.type, celeryTaskBody "t1" (NotificationMessage.toJson
          ⟨"nid-1", dupReq.type, dupReq.user_id, dupReq.priority, dupReq.template_id, dupReq.vars,
            ⟨"ip", "ua", 5⟩, 0, 3⟩))] :=
  publish_wraps_envelope_in_celery_task ⟨⟨[], []⟩, []⟩ dupReq "" "nid-1" "ip" "ua" "t1" 5
    (by decide) (by decide)

/-- C7 counterexample: the email queue — a primary queue — is declared
(by the gateway) but no declaration anywhere in the topology setup gives
it an `x-message-ttl` argument, so "every primary queue is configured
with a 24-hour message TTL and dead-letter routing" fails. -/
theorem email_queue_declared_without_ttl :
    fabricSetupOps.any (fun op => QueueOp.declaresQueue op EMAIL_QUEUE) = true
    ∧ declaresQueueWithTTL fabricSetupOps EMAIL_QUEUE = false := by
  exact ⟨rfl, rfl⟩

/-- C7 amended: the gateway setup declares one durable direct exchange,
durable email and push queues bound to it with routing keys "email" and
"push", and a durable failed queue that it does not bind to the exchange
— all three declared with nil arguments (no TTL, no dead-letter config);
the 24-hour message TTL and the dead-letter routing to the failed queue
(via the default exchange) are configured only by the push service's
assertion of the push queue; the email queue gets no TTL or dead-letter
configuration anywhere. -/
theorem queue_fabric_topology :
    RabbitMQClient.setup RABBITMQ_EXCHANGE EMAIL_QUEUE PUSH_QUEUE FAILED_QUEUE
      = [QueueOp.exchangeDeclare RABBITMQ_EXCHANGE "direct" true,
         QueueOp.queueDeclare EMAIL_QUEUE true [],
         QueueOp.queueBind EMAIL_QUEUE "email" RABBITMQ_EXCHANGE,
         QueueOp.queueDeclare PUSH_QUEUE true [],
         QueueOp.queueBind PUSH_QUEUE "push" RABBITMQ_EXCHANGE,
         QueueOp.queueDeclare FAILED_QUEUE true []]
    ∧ bindsQueueTo fabricSetupOps FAILED_QUEUE RABBITMQ_EXCHANGE = false
    ∧ setupQueues
      = [QueueOp.queueDeclare PUSH_QUEUE true
           [("x-message-ttl", Jval.num 86400000),
            ("x-dead-letter-exchange", Jval.str ""),
            ("x-dead-letter-routing-key", Jval.str FAILED_QUEUE)],
         QueueOp.queueDeclare FAILED_QUEUE true []]
    ∧ declaresQueueWithTTL fabricSetupOps PUSH_QUEUE = true := by
  exact ⟨rfl, rfl, rfl, rfl⟩

/-- C5 counterexample: on a concrete handler failure the consumer
publishes the error payload to the failed queue and then nacks with
`requeue = false` — but the payload carries the original message under
the key "message", not "original_message". -/
theorem failed_queue_payload_key_is_message :
    consumeMessage (RawMessage.parsed exQueueMsg) (HandlerOutcome.failure exErr) true true "ts1"
      = [ConsumerEffect.failedQueuePublish FAILED_QUEUE (failedQueuePayload exQueueMsg exErr "ts1"),
         ConsumerEffect.nack false false]
    ∧ (failedQueuePayload exQueueMsg exErr "ts1").hasKey "original_message" = false
    ∧ (failedQueuePayload exQueueMsg exErr "ts1").hasKey "message" = true :=
  ⟨rfl, rfl, rfl⟩

/-- C5 amended: every consumed message is settled with the broker
exactly once — acknowledged or negative-acknowledged — and never with
`requeue = true`; an acknowledgment happens only when processing
succeeded; on a handler failure (channel available, send accepted) the
consumer first publishes `{message: original, error:{name, message,
stack}, timestamp}` to the failed queue and then nacks with
`requeue = false`; a message whose JSON decode fails is nacked directly
with no consumer-side failed-queue write. -/
theorem consumer_settles_every_message_once
    (raw : RawMessage) (outcome : HandlerOutcome) (chanOk sendOk : Bool) (ts : String) :
    List.countP ConsumerEffect.isTerminal (consumeMessage raw outcome chanOk sendOk ts) = 1
    ∧ (consumeMessage raw outcome chanOk sendOk ts).any ConsumerEffect.isRequeue = false
    ∧ ((consumeMessage raw outcome chanOk sendOk ts).any ConsumerEffect.isAck = true →
        outcome = HandlerOutcome.success)
    ∧ (∀ msg e, raw = RawMessage.parsed msg → outcome = HandlerOutcome.failure e →
        ((msg.hasKey "user_id" && msg.hasKey "template_code") || msg.hasKey "deviceToken") = true →
        chanOk = true → sendOk = true →
        consumeMessage raw outcome chanOk sendOk ts
          = [ConsumerEffect.failedQueuePublish FAILED_QUEUE (failedQueuePayload msg e ts),
             ConsumerEffect.nack false false])
    ∧ (raw = RawMessage.malformed →
        consumeMessage raw outcome chanOk sendOk ts = [ConsumerEffect.nack false false]) := by
  cases raw with
  | malformed =>
    refine ⟨?_, ?_, ?_, ?_, fun _ => rfl⟩
    · simp [consumeMessage, ConsumerEffect.isTerminal, ConsumerEffect.isAck, ConsumerEffect.isNack]
    · simp [consumeMessage, ConsumerEffect.isRequeue]
    · simp [consumeMessage, ConsumerEffect.isAck]
    · intro msg e hraw
      exact absurd hraw (by simp)
  | parsed msg =>
    by_cases h1 : (msg.hasKey "user_id" && msg.hasKey "template_code") = true
    · cases outcome with
      | success =>
        refine ⟨?_, ?_, fun _ => rfl, ?_, by simp⟩
        · simp [consumeMessage, processPushNotification, h1,
            ConsumerEffect.isTerminal, ConsumerEffect.isAck, ConsumerEffect.isNack]
        · simp [consumeMessage, processPushNotification, h1, ConsumerEffect.isRequeue]
        · intro msg2 e _ hout
          exact absurd hout (by simp)
      | failure e =>
        refine ⟨?_, ?_, ?_, ?_, by simp⟩
        · cases chanOk <;> cases sendOk <;>
            simp [consumeMessage, processPushNotification, h1, moveToFailedQueue,
              ConsumerEffect.isTerminal, ConsumerEffect.isAck, ConsumerEffect.isNack]
        · cases chanOk <;> cases sendOk <;>
            simp [consumeMessage, processPushNotification, h1, moveToFailedQueue,
              ConsumerEffect.isRequeue]
        · cases chanOk <;> cases sendOk <;>
            simp [consumeMessage, processPushNotification, h1, moveToFailedQueue,
              ConsumerEffect.isAck]
        · intro msg2 e2 hraw hout _ hchan hsend
          cases hraw
          cases hout
          subst hchan
          subst hsend
          simp [consumeMessage, processPushNotification, h1, moveToFailedQueue]
    · by_cases h2 : msg.hasKey "deviceToken" = true
      · cases outcome with
        | success =>
          refine ⟨?_, ?_, fun _ => rfl, ?_, by simp⟩
          · simp [consumeMessage, processPushNotification, h1, h2,
              ConsumerEffect.isTerminal, ConsumerEffect.isAck, ConsumerEffect.isNack]
          · simp [consumeMessage, processPushNotification, h1, h2, ConsumerEffect.isRequeue]
          · intro msg2 e _ hout
            exact absurd hout (by simp)
        | failure e =>
          refine ⟨?_, ?_, ?_, ?_, by simp⟩
          · cases chanOk <;> cases sendOk <;>
              simp [consumeMessage, processPushNotification, h1, h2, moveToFailedQueue,
                ConsumerEffect.isTerminal, ConsumerEffect.isAck, ConsumerEffect.isNack]
          · cases chanOk <;> cases sendOk <;>
              simp [consumeMessage, processPushNotification, h1, h2, moveToFailedQueue,
                ConsumerEffect.isRequeue]
          · cases chanOk <;> cases sendOk <;>
              simp [consumeMessage, processPushNotification, h1, h2, moveToFailedQueue,
                ConsumerEffect.isAck]
          · intro msg2 e2 hraw hout _ hchan hsend
            cases hraw
            cases hout
            subst hchan
            subst hsend
            simp [consumeMessage, processPushNotification, h1, h2, moveToFailedQueue]
      · refine ⟨?_, ?_, ?_, ?_, by simp⟩
        · cases chanOk <;> cases sendOk <;>
            simp [consumeMessage, processPushNotification, h1, h2, moveToFailedQueue,
              ConsumerEffect.isTerminal, ConsumerEffect.isAck, ConsumerEffect.isNack]
        · cases chanOk <;> cases sendOk <;>
            simp [consumeMessage, processPushNotification, h1, h2, moveToFailedQueue,
              ConsumerEffect.isRequeue]
        · cases chanOk <;> cases sendOk <;>
            simp [consumeMessage, processPushNotification, h1, h2, moveToFailedQueue,
              ConsumerEffect.isAck]
        · intro msg2 e2 hraw hout hvalid
          cases hraw
          rw [Bool.or_eq_true] at hvalid
          rcases hvalid with hv | hv
          · exact absurd hv h1
          · exact absurd hv h2

/-- C5 amended witness: the theorem at a concrete failing message, with
the failure-path antecedents discharged. -/
theorem consumer_settles_every_message_once_witness :
    List.countP ConsumerEffect.isTerminal
        (consumeMessage (RawMessage.parsed exQueueMsg) (HandlerOutcome.failure exErr) true true "ts1") = 1
    ∧ (consumeMessage (RawMessage.parsed exQueueMsg) (HandlerOutcome.failure exErr) true true "ts1").any
        ConsumerEffect.isRequeue = false
    ∧ consumeMessage (RawMessage.parsed exQueueMsg) (HandlerOutcome.failure exErr) true true "ts1"
        = [ConsumerEffect.failedQueuePublish FAILED_QUEUE (failedQueuePayload exQueueMsg exErr "ts1"),
           ConsumerEffect.nack false false] :=
  ⟨(consumer_settles_every_message_once (RawMessage.parsed exQueueMsg)
      (HandlerOutcome.failure exErr) true true "ts1").1,
   (consumer_settles_every_message_once (RawMessage.parsed exQueueMsg)
      (HandlerOutcome.failure exErr) true true "ts1").2.1,
   (consumer_settles_every_message_once (RawMessage.parsed exQueueMsg)
      (HandlerOutcome.failure exErr) true true "ts1").2.2.2.1 exQueueMsg exErr rfl rfl
      (by decide) rfl rfl⟩
